import Mathlib

/-!
Shallow embedding of the IntentForge policy engine.

Sources embedded (translated function by function):
- `backend/app/models/policy.py` (Policy, PolicyRules, validate_schema, is_expired)
- `backend/app/models/transaction.py` (Transaction, ValidationResult)
- `backend/app/models/clawback.py` (ClawbackRequest, ClawbackRecord, ClawbackResult)
- `intentforge/backend/app/services/validation_service.py`
  (validate_transaction, _evaluate_policy)
- `backend/app/services/policy_service.py`
  (create_policy, _detect_conflicts, detect_all_conflicts, _assess_conflict_severity)
- `backend/app/services/clawback_service.py` (execute_clawback, register_transaction)
- `backend/app/services/wallet_service.py` (get_wallet, update_balance)

Modelling conventions:
- Python `float` amounts and balances are modelled as `ℚ`.
- `datetime` values are modelled as `Int` (epoch seconds); `datetime.utcnow()`
  becomes an explicit `now : Int` parameter.
- `UUID` identifiers are modelled as `Nat`; `uuid4()` becomes an explicit
  fresh-id counter threaded through stateful operations.
- Python truthiness of optional/collection fields is modelled explicitly
  (`None`, `""`, `[]` and `0` are falsy), matching each `if x:` in the source;
  checks written `if x is not None:` in the source are modelled as `Option`
  matches.
- Python string rendering of floats / lists / sets inside f-strings is
  replaced by deterministic stand-ins (`qRender`, `strListRender`,
  `strSetRender`); no verified property depends on how numbers or
  collections are rendered, only on the literal fragments of the messages.
- Wall-clock measurement (`processing_time_ms`) and log/blockchain-audit side
  effects are not modelled; they do not feed back into any decision.
-/

namespace IntentForge

/-- Python truthiness of an optional string: `None` and `""` are falsy. -/
def optStrTruthy : Option String → Bool
  | none => false
  | some s => !(s == "")

/-- Python truthiness of an optional float: `None` and `0.0` are falsy. -/
def optRatTruthy : Option ℚ → Bool
  | none => false
  | some x => !(x == 0)

/-- Python substring membership `needle in hay` on strings. -/
def strContains (hay needle : String) : Bool := decide (needle.data <:+: hay.data)

/-- Python `str.lower()`: character-wise lowercasing (the conflict
descriptions it is applied to are ASCII). -/
def strToLower (s : String) : String := ⟨s.data.map Char.toLower⟩

/-- Python set disjointness `set(a).isdisjoint(set(b))`. -/
def listDisjoint (a b : List String) : Bool := a.all (fun x => !(b.contains x))

/-- Deterministic stand-in for Python float rendering. -/
def qRender (x : ℚ) : String :=
  if x.den = 1 then toString x.num ++ ".0"
  else toString x.num ++ "/" ++ toString x.den

/-- Deterministic stand-in for Python list-of-strings rendering. -/
def strListRender (l : List String) : String :=
  "[" ++ String.intercalate ", " (l.map (fun s => "'" ++ s ++ "'")) ++ "]"

/-- Deterministic stand-in for Python set-of-strings rendering.  Python set
iteration order is hash-dependent; no verified property depends on the
rendered element order, only on the literal fragments around it. -/
def strSetRender (l : List String) : String :=
  "\x7b" ++ String.intercalate ", " (l.map (fun s => "'" ++ s ++ "'")) ++ "\x7d"

/-- `TransactionStatus` enum (`models/transaction.py`). -/
inductive TransactionStatus where
  | approved
  | blocked
  | pending
  | violation
  | clawbackRequired
deriving DecidableEq, Repr

/-- `PolicyRules` (`models/policy.py`): the nested rules object inside a
policy.  List fields default to `[]`, numeric and expiry fields to `None`. -/
structure PolicyRules where
  allowed_categories : List String := []
  max_amount : Option ℚ := none
  per_transaction_cap : Option ℚ := none
  geo_fence : List String := []
  merchant_whitelist : List String := []
  merchant_blacklist : List String := []
  expiry : Option Int := none
deriving DecidableEq, Repr

/-- `Policy` (`models/policy.py`).  Fields that no embedded code path reads
(description, attached wallets, created/updated timestamps) are omitted. -/
structure Policy where
  policy_id : Nat
  name : String
  policy_type : String := "category_restriction"
  rules : PolicyRules := {}
  priority : Int := 0
  is_active : Bool := true
  expires_at : Option Int := none
deriving DecidableEq, Repr

/-- `Policy.is_expired` (`models/policy.py`): false when `expires_at` is
`None`, otherwise `utcnow() > expires_at`. -/
def Policy.isExpired (p : Policy) (now : Int) : Bool :=
  match p.expires_at with
  | none => false
  | some e => decide (now > e)

/-- `Policy.validate_schema` (`models/policy.py`): collects all violated
constraints, in source order. -/
def Policy.validateSchema (p : Policy) : List String :=
  (if p.name == "" then ["Policy name is required"] else []) ++
  (match p.rules.max_amount with
   | some m => if m ≤ 0 then ["max_amount must be positive"] else []
   | none => []) ++
  (match p.rules.per_transaction_cap, p.rules.max_amount with
   | some c, some m => if c > m then ["per_transaction_cap cannot exceed max_amount"] else []
   | _, _ => [])

/-- `Transaction` (`models/transaction.py`).  `upi_ref_id`, `metadata`,
`status` and `created_at` are carried by no embedded code path and omitted. -/
structure Transaction where
  transaction_id : Nat
  wallet_id : Nat
  amount : ℚ
  category : String
  merchant : Option String := none
  location : Option String := none
deriving DecidableEq, Repr

/-- `ValidationResult` (`models/transaction.py`), restricted to the decision
fields.  The narrative `reasoning` text and the wall-clock
`processing_time_ms` are presentation-only and not modelled. -/
structure ValidationResult where
  transaction_id : Nat
  status : TransactionStatus
  violations : List String
  policies_evaluated : List Nat
  confidence_score : ℚ
  requires_clawback : Bool
deriving DecidableEq, Repr

/-! ### Rule Evaluator: `ValidationService._evaluate_policy`
(`intentforge/backend/app/services/validation_service.py`, lines 184-274)

Each violation message is a named definition so theorems can refer to the
exact message a check produces. -/

/-- Check 2 message: category not in allowed list. -/
def categoryViolationMsg (p : Policy) (t : Transaction) : String :=
  "Policy '" ++ p.name ++ "': Category '" ++ t.category ++
    "' not in allowed list " ++ strListRender p.rules.allowed_categories

/-- Check 3 message: amount exceeds `max_amount`. -/
def amountViolationMsg (p : Policy) (t : Transaction) (m : ℚ) : String :=
  "Policy '" ++ p.name ++ "': Amount " ++ qRender t.amount ++
    " exceeds maximum limit " ++ qRender m

/-- Check 4 message: amount exceeds `per_transaction_cap`. -/
def capViolationMsg (p : Policy) (t : Transaction) (c : ℚ) : String :=
  "Policy '" ++ p.name ++ "': Transaction amount " ++ qRender t.amount ++
    " exceeds per-transaction cap " ++ qRender c

/-- Check 5 message (location missing). -/
def geoMissingMsg (p : Policy) : String :=
  "Policy '" ++ p.name ++ "': Transaction location required but not provided. " ++
    "Allowed regions: " ++ strListRender p.rules.geo_fence

/-- Check 5 message (location outside the fence). -/
def geoOutsideMsg (p : Policy) (loc : String) : String :=
  "Policy '" ++ p.name ++ "': Location '" ++ loc ++
    "' not in allowed geo-fence " ++ strListRender p.rules.geo_fence

/-- Check 6 message (merchant missing). -/
def merchantMissingMsg (p : Policy) : String :=
  "Policy '" ++ p.name ++ "': Merchant information required. " ++
    "Allowed merchants: " ++ strListRender p.rules.merchant_whitelist

/-- Check 6 message (merchant not whitelisted). -/
def merchantOutsideMsg (p : Policy) (m : String) : String :=
  "Policy '" ++ p.name ++ "': Merchant '" ++ m ++
    "' not in whitelist " ++ strListRender p.rules.merchant_whitelist

/-- Check 7 message (merchant blacklisted). -/
def merchantBlacklistMsg (p : Policy) (m : String) : String :=
  "Policy '" ++ p.name ++ "': Merchant '" ++ m ++ "' is blacklisted"

/-- `_evaluate_policy`: evaluates one transaction against one policy and
returns the first failing check's message, or `none`.  The check order is
the source's: expiry, category, max_amount, per-transaction cap, geo-fence,
merchant whitelist, merchant blacklist. -/
def evaluatePolicy (t : Transaction) (p : Policy) (now : Int) : Option String :=
  if p.isExpired now then
    none
  else if p.rules.allowed_categories ≠ [] ∧ t.category ∉ p.rules.allowed_categories then
    some (categoryViolationMsg p t)
  else match p.rules.max_amount with
  | some m =>
    if t.amount > m then some (amountViolationMsg p t m)
    else evaluatePolicyFromCap t p
  | none => evaluatePolicyFromCap t p
where
  /-- Checks 4-7, after the category and max_amount checks passed. -/
  evaluatePolicyFromCap (t : Transaction) (p : Policy) : Option String :=
    match p.rules.per_transaction_cap with
    | some c =>
      if t.amount > c then some (capViolationMsg p t c)
      else evaluatePolicyFromGeo t p
    | none => evaluatePolicyFromGeo t p
  /-- Checks 5-7. -/
  evaluatePolicyFromGeo (t : Transaction) (p : Policy) : Option String :=
    if p.rules.geo_fence ≠ [] then
      if !optStrTruthy t.location then some (geoMissingMsg p)
      else match t.location with
        | some loc =>
          if loc ∉ p.rules.geo_fence then some (geoOutsideMsg p loc)
          else evaluatePolicyFromMerchant t p
        | none => some (geoMissingMsg p)
    else evaluatePolicyFromMerchant t p
  /-- Checks 6-7. -/
  evaluatePolicyFromMerchant (t : Transaction) (p : Policy) : Option String :=
    if p.rules.merchant_whitelist ≠ [] then
      if !optStrTruthy t.merchant then some (merchantMissingMsg p)
      else match t.merchant with
        | some m =>
          if m ∉ p.rules.merchant_whitelist then some (merchantOutsideMsg p m)
          else evaluatePolicyBlacklist t p
        | none => some (merchantMissingMsg p)
    else evaluatePolicyBlacklist t p
  /-- Check 7. -/
  evaluatePolicyBlacklist (t : Transaction) (p : Policy) : Option String :=
    if p.rules.merchant_blacklist ≠ [] then
      match t.merchant with
      | some m =>
        if optStrTruthy t.merchant ∧ m ∈ p.rules.merchant_blacklist then
          some (merchantBlacklistMsg p m)
        else none
      | none => none
    else none

/-! ### Validation Orchestrator: `ValidationService.validate_transaction`
(`intentforge/backend/app/services/validation_service.py`, lines 40-171) -/

/-- The sort key of `sorted(policies, key=lambda p: p.priority)`. -/
def priorityLe (p q : Policy) : Prop := p.priority ≤ q.priority

instance : DecidableRel priorityLe :=
  fun p q => inferInstanceAs (Decidable (p.priority ≤ q.priority))

instance : IsTotal Policy priorityLe := ⟨fun p q => Int.le_total p.priority q.priority⟩

instance : IsTrans Policy priorityLe := ⟨fun _ _ _ => le_trans⟩

/-- `sorted(policies, key=lambda p: p.priority)`: Python's sort is stable and
ascending; insertion sort on the priority key computes the same list. -/
def sortPolicies (ps : List Policy) : List Policy := List.insertionSort priorityLe ps

/-- The orchestrator's per-policy guard: `policy.is_active and not
policy.is_expired()`. -/
def effectiveB (now : Int) (p : Policy) : Bool := p.is_active && !(p.isExpired now)

/-- The orchestrator's main loop over the sorted policies: skips ineffective
policies, records evaluated policy ids, and collects violations, both in
evaluation order. -/
def evalLoop (t : Transaction) (now : Int) : List Policy → List String × List Nat
  | [] => ([], [])
  | p :: rest =>
    if effectiveB now p then
      let tail := evalLoop t now rest
      match evaluatePolicy t p now with
      | some v => (v :: tail.1, p.policy_id :: tail.2)
      | none => (tail.1, p.policy_id :: tail.2)
    else evalLoop t now rest

/-- An entry of `ValidationService.transaction_history`. -/
structure HistoryEntry where
  key : Nat
  transaction : Transaction
  result : ValidationResult
deriving DecidableEq, Repr

/-- `validate_transaction`: sorts by priority, runs the loop, derives the
status (`BLOCKED` iff any violation was collected, which is exactly the
source's flip-on-first-violation assignment), fixes the confidence heuristic,
and appends the result to the in-memory history.  The history is written,
never read, by validation. -/
def validateTransaction (t : Transaction) (ps : List Policy) (now : Int)
    (hist : List HistoryEntry) : ValidationResult × List HistoryEntry :=
  let sorted := sortPolicies ps
  let (violations, evaluated) := evalLoop t now sorted
  let status := if violations = [] then TransactionStatus.approved else TransactionStatus.blocked
  let confidence : ℚ := if violations = [] then 98/100 else 95/100
  let result : ValidationResult :=
    { transaction_id := t.transaction_id
      status := status
      violations := violations
      policies_evaluated := evaluated
      confidence_score := confidence
      requires_clawback := false }
  (result, ⟨t.transaction_id, t, result⟩ :: hist)

/-! ### Conflict Analyzer: `PolicyService._detect_conflicts`,
`detect_all_conflicts`, `_assess_conflict_severity`
(`backend/app/services/policy_service.py`, lines 154-303) -/

/-- Rule 1 message: contradictory category restrictions. -/
def categoryConflictMsg (p e : Policy) : String :=
  "CONFLICT: Policy '" ++ p.name ++ "' allows categories " ++
    strSetRender p.rules.allowed_categories ++
    " which have NO overlap with existing policy '" ++ e.name ++
    "' categories " ++ strSetRender e.rules.allowed_categories ++
    ". This creates impossible conditions - no transaction can satisfy both policies."

/-- Rule 2 message: impossible amount limits. -/
def amountConflictMsg (p e : Policy) (pm em : ℚ) : String :=
  "CONFLICT: Policy '" ++ p.name ++ "' max_amount (" ++ qRender pm ++
    ") is significantly lower than '" ++ e.name ++ "' (" ++ qRender em ++
    "). Consider consolidating limits."

/-- Rule 3 message: per-transaction cap exceeds an existing max_amount. -/
def capConflictMsg (p e : Policy) (c m : ℚ) : String :=
  "CONFLICT: Policy '" ++ p.name ++ "' per_transaction_cap (" ++ qRender c ++
    ") exceeds existing policy '" ++ e.name ++ "' max_amount (" ++ qRender m ++
    "). Per-transaction cap should not exceed total spending limit."

/-- Rule 4 message: contradictory geo-fence restrictions. -/
def geoConflictMsg (p e : Policy) : String :=
  "CONFLICT: Policy '" ++ p.name ++ "' geo_fence " ++
    strSetRender p.rules.geo_fence ++
    " has NO overlap with existing policy '" ++ e.name ++ "' geo_fence " ++
    strSetRender e.rules.geo_fence ++ ". No location can satisfy both policies."

/-- Rule 5 message: merchant whitelist/blacklist overlap. -/
def merchantConflictMsg (p e : Policy) (overlap : List String) : String :=
  "CONFLICT: Policy '" ++ p.name ++ "' whitelists merchants " ++
    strSetRender overlap ++ " but existing policy '" ++ e.name ++
    "' blacklists them. These merchants are in impossible state (both allowed and blocked)."

/-- Rule 6 message: near-simultaneous expiries. -/
def expiryConflictMsg (p e : Policy) : String :=
  "WARNING: Policy '" ++ p.name ++ "' and '" ++ e.name ++
    "' have expiries within 24 hours of each other. " ++
    "This may cause unexpected policy cascade effects."

/-- The body of `_detect_conflicts`' loop for one existing policy: the six
conflict rules applied in source order to `(policy, existing)`.  Rules 2, 3
and 5 read different fields from the two sides, so the pair order matters. -/
def pairConflicts (p e : Policy) : List String :=
  (if p.policy_type == "category_restriction" ∧
      e.policy_type == "category_restriction" ∧
      p.rules.allowed_categories ≠ [] ∧ e.rules.allowed_categories ≠ [] ∧
      listDisjoint p.rules.allowed_categories e.rules.allowed_categories
   then [categoryConflictMsg p e] else []) ++
  (match p.rules.max_amount, e.rules.max_amount with
   | some pm, some em =>
     -- `existing.rules.max_amount * 0.1` embedded as the exact division
     -- `em.num / (em.den * 10)`
     if optRatTruthy (some pm) ∧ optRatTruthy (some em) ∧
        pm < mkRat em.num (em.den * 10)
     then [amountConflictMsg p e pm em] else []
   | _, _ => []) ++
  (match p.rules.per_transaction_cap, e.rules.max_amount with
   | some c, some m =>
     if optRatTruthy (some c) ∧ optRatTruthy (some m) ∧ c > m
     then [capConflictMsg p e c m] else []
   | _, _ => []) ++
  (if p.rules.geo_fence ≠ [] ∧ e.rules.geo_fence ≠ [] ∧
      listDisjoint p.rules.geo_fence e.rules.geo_fence
   then [geoConflictMsg p e] else []) ++
  (if p.rules.merchant_whitelist ≠ [] ∧ e.rules.merchant_blacklist ≠ [] ∧
      p.rules.merchant_whitelist.filter (e.rules.merchant_blacklist.contains ·) ≠ []
   then [merchantConflictMsg p e
           (p.rules.merchant_whitelist.filter (e.rules.merchant_blacklist.contains ·))]
   else []) ++
  (match p.rules.expiry, e.rules.expiry with
   | some pe, some ee =>
     -- `abs(total_seconds(...))` embedded as `Int.natAbs` of the difference
     if 0 < (pe - ee).natAbs ∧ (pe - ee).natAbs < 86400
     then [expiryConflictMsg p e] else []
   | _, _ => [])

/-- `_detect_conflicts(policy)`: compares `policy` against every active
policy of the store (the store includes `policy` itself once it is inserted),
concatenating each comparison's conflicts in store order. -/
def detectConflictsList (store : List Policy) (p : Policy) : List String :=
  (store.filter (·.is_active)).flatMap (pairConflicts p)

/-- `_assess_conflict_severity`: classifies a conflict description by
substring keyword matching on the lowercased text. -/
def assessConflictSeverity (d : String) : String :=
  let l := strToLower d
  if strContains l "impossible" then "CRITICAL"
  else if strContains l "contradictory" then "HIGH"
  else if strContains l "warning" then "LOW"
  else "MEDIUM"

/-- One element of `detect_all_conflicts`' conflict list. -/
structure ConflictEntry where
  policy_a : Nat
  policy_a_name : String
  policy_b : Nat
  policy_b_name : String
  conflict_description : String
  severity : String
deriving DecidableEq, Repr

/-- The dictionary returned by `detect_all_conflicts`. -/
structure ConflictReport where
  total_conflicts : Nat
  conflicts : List ConflictEntry
  has_critical_conflicts : Bool
deriving DecidableEq, Repr

/-- The nested pair loop of `detect_all_conflicts`: for each active
`policy_a` (in store order) and each active `policy_b` after it, recompute
`_detect_conflicts(policy_a)` over the whole store and keep the conflict
strings that mention `policy_b.name` as a substring. -/
def detectAllPairs (store : List Policy) : List Policy → List ConflictEntry
  | [] => []
  | a :: rest =>
    (if a.is_active then
      (rest.filter (·.is_active)).flatMap (fun b =>
        ((detectConflictsList store a).filter (fun c => strContains c b.name)).map
          (fun c =>
            { policy_a := a.policy_id
              policy_a_name := a.name
              policy_b := b.policy_id
              policy_b_name := b.name
              conflict_description := c
              severity := assessConflictSeverity c }))
    else []) ++ detectAllPairs store rest

/-- `detect_all_conflicts`: aggregates the pairwise entries into the report
dictionary. -/
def detectAllConflicts (store : List Policy) : ConflictReport :=
  let entries := detectAllPairs store store
  { total_conflicts := entries.length
    conflicts := entries
    has_critical_conflicts := entries.any (fun c => c.severity == "CRITICAL") }

/-! ### Policy creation: `PolicyService.create_policy`
(`backend/app/services/policy_service.py`, lines 31-102) -/

/-- The `details` payload of an `IntentForgeException`. -/
inductive ExcDetails where
  | noDetails
  | errors (errs : List String)
  | transactionId (tid : Nat)
  | walletId (wid : Nat)
deriving DecidableEq, Repr

/-- The exceptions raised by the embedded code paths
(`backend/app/utils/exceptions.py`). -/
inductive ServiceError where
  | walletNotFound (wallet_id : Nat)
  | validationException (message : String) (details : ExcDetails)
  | insufficientBalance (wallet_id : Nat) (required available : ℚ)
deriving DecidableEq, Repr

/-- `str(e)` on an `IntentForgeException`: the exception's message. -/
def ServiceError.message : ServiceError → String
  | .walletNotFound wid => "Wallet not found: " ++ toString wid
  | .validationException m _ => m
  | .insufficientBalance wid _ _ => "Insufficient balance in wallet " ++ toString wid

/-- `PolicyCreate` (`models/policy.py`). -/
structure PolicyCreate where
  name : String
  policy_type : String := "category_restriction"
  rules : PolicyRules := {}
  wallet_id : Option Nat := none
  priority : Int := 0
deriving DecidableEq, Repr

/-- `PolicyResponse` (`models/policy.py`), restricted to the fields
`create_policy` fills. -/
structure PolicyResponse where
  success : Bool
  message : String
  policy : Policy
  conflicts : List String
deriving DecidableEq, Repr

/-- The `Policy(...)` constructor call at the top of `create_policy`:
expiry is copied from `rules.expiry` onto the policy. -/
def policyOfCreate (pd : PolicyCreate) (newId : Nat) : Policy :=
  { policy_id := newId
    name := pd.name
    policy_type := pd.policy_type
    rules := pd.rules
    priority := pd.priority
    is_active := true
    expires_at := pd.rules.expiry }

/-- `create_policy`: builds the policy, validates its schema (raising a
`ValidationException` that carries the full structured error list), computes
conflicts against the current store, and inserts the policy.  Wallet
attachment and audit logging mutate no policy-store state relevant here. -/
def createPolicy (store : List Policy) (pd : PolicyCreate) (newId : Nat) :
    Except ServiceError (PolicyResponse × List Policy) :=
  let policy := policyOfCreate pd newId
  let schemaErrors := policy.validateSchema
  if schemaErrors ≠ [] then
    .error (.validationException
      ("Policy schema validation failed: " ++ String.intercalate ", " schemaErrors)
      (.errors schemaErrors))
  else
    let conflicts := detectConflictsList store policy
    .ok ({ success := true
           message := "Policy created successfully"
           policy := policy
           conflicts := conflicts },
         store ++ [policy])

/-! ### Wallet Store: `WalletService.get_wallet`, `update_balance`
(`backend/app/services/wallet_service.py`) -/

/-- `Wallet` (`models/wallet.py`), restricted to the fields the embedded
code paths read. -/
structure Wallet where
  wallet_id : Nat
  balance : ℚ
deriving DecidableEq, Repr

/-- `self.wallets.get(wallet_id)` over the in-memory store. -/
def getWallet (ws : List Wallet) (wid : Nat) : Option Wallet :=
  ws.find? (·.wallet_id == wid)

/-- The balance operations of `update_balance`. -/
inductive BalanceOp where
  | debit
  | credit
deriving DecidableEq, Repr

/-- `update_balance`: raises `WalletNotFoundException` when the wallet is
absent; a debit below balance raises `InsufficientBalanceException` before
any mutation; a credit always succeeds.  Returns the updated store. -/
def updateBalance (ws : List Wallet) (wid : Nat) (amount : ℚ) (op : BalanceOp) :
    Except ServiceError (List Wallet) :=
  match getWallet ws wid with
  | none => .error (.walletNotFound wid)
  | some w =>
    match op with
    | .debit =>
      if w.balance < amount then .error (.insufficientBalance wid amount w.balance)
      else .ok (ws.map (fun x =>
        if x.wallet_id == wid then { x with balance := x.balance - amount } else x))
    | .credit =>
      .ok (ws.map (fun x =>
        if x.wallet_id == wid then { x with balance := x.balance + amount } else x))

/-- The clawback engine's credit collaborator:
`wallet_service.update_balance(wallet_id, amount, operation="credit")`. -/
def walletCredit (wid : Nat) (amount : ℚ) (ws : List Wallet) :
    Except ServiceError (List Wallet) :=
  updateBalance ws wid amount .credit

/-! ### Clawback Engine: `ClawbackService.execute_clawback`,
`register_transaction` (`backend/app/services/clawback_service.py`) -/

/-- `ClawbackStatus` enum (`models/clawback.py`). -/
inductive ClawbackStatus where
  | pending
  | executed
  | failed
  | cancelled
deriving DecidableEq, Repr

/-- `ClawbackReason` enum (`models/clawback.py`). -/
inductive ClawbackReason where
  | policyViolation
  | expiredPolicy
  | fraudDetection
  | complianceBreach
  | manualReversal
deriving DecidableEq, Repr

/-- `ClawbackRequest` (`models/clawback.py`): the caller supplies a
transaction id, a wallet id, a reason and the force flag — no amount. -/
structure ClawbackRequest where
  transaction_id : Nat
  wallet_id : Nat
  reason : ClawbackReason := .policyViolation
  force : Bool := false
deriving DecidableEq, Repr

/-- `ClawbackRecord` (`models/clawback.py`). -/
structure ClawbackRecord where
  clawback_id : Nat
  transaction_id : Nat
  wallet_id : Nat
  amount : ℚ
  reason : ClawbackReason
  status : ClawbackStatus
  explanation : String
deriving DecidableEq, Repr

/-- `ClawbackResult` (`models/clawback.py`), without the wall-clock
`processing_time_ms`. -/
structure ClawbackResult where
  clawback_id : Nat
  transaction_id : Nat
  wallet_id : Nat
  status : ClawbackStatus
  reason : ClawbackReason
  amount_reversed : ℚ
  previous_balance : ℚ
  new_balance : ℚ
  explanation : String
  violations : List String
deriving DecidableEq, Repr

/-- `ClawbackService`'s own state: the clawback audit map and the mock
transaction store, plus a fresh-id counter standing in for `uuid4()`. -/
structure ClawbackState where
  clawbacks : List ClawbackRecord := []
  transactions : List Transaction := []
  next_clawback_id : Nat := 0
deriving DecidableEq, Repr

/-- The state `ClawbackService.__init__` builds: both stores empty. -/
def initialClawbackState : ClawbackState := {}

/-- `_generate_clawback_explanation`. -/
def generateClawbackExplanation (reason : ClawbackReason) (amount : ℚ)
    (status : ClawbackStatus) : String :=
  let base :=
    match reason with
    | .policyViolation =>
      "Transaction violated wallet policy rules after execution. " ++
        "Automated clawback initiated to enforce compliance."
    | .expiredPolicy =>
      "Transaction executed under an expired policy. " ++
        "Funds reversed to maintain policy integrity."
    | .fraudDetection =>
      "Fraudulent activity detected. Transaction reversed for security."
    | .complianceBreach =>
      "Regulatory compliance violation detected. Mandatory reversal executed."
    | .manualReversal => "Manual reversal requested by administrator."
  match status with
  | .executed =>
    "✅ CLAWBACK EXECUTED: " ++ base ++ " Amount " ++ qRender amount ++
      " INR restored to wallet. Balance updated successfully."
  | .failed =>
    "❌ CLAWBACK FAILED: Unable to reverse transaction. Manual intervention required."
  | _ => "⏳ CLAWBACK PENDING: " ++ base

/-- `execute_clawback`, parameterized by the credit collaborator so the
`try/except` around the credit step can be analysed against any collaborator
behaviour; `walletCredit` is the concrete collaborator wired in the source.

Steps mirror the source: resolve the wallet (raising `WalletNotFoundException`
when absent); look the transaction up in the service's own store, raising a
`ValidationException` when absent and not forced; fall back to the mock
amount `5000.0` when forced and absent; snapshot the balance; run the credit
and the balance re-read inside the `try`, mapping any failure to a `FAILED`
outcome with the balance rolled back in the result; append the
`ClawbackRecord`; return the `ClawbackResult`. -/
def executeClawback
    (creditOp : Nat → ℚ → List Wallet → Except ServiceError (List Wallet))
    (cs : ClawbackState) (ws : List Wallet) (req : ClawbackRequest) :
    Except ServiceError (ClawbackResult × ClawbackState × List Wallet) :=
  match getWallet ws req.wallet_id with
  | none => .error (.walletNotFound req.wallet_id)
  | some wallet =>
    let transactionQ := cs.transactions.find? (·.transaction_id == req.transaction_id)
    if transactionQ.isNone ∧ req.force = false then
      .error (.validationException
        ("Transaction " ++ toString req.transaction_id ++ " not found")
        (.transactionId req.transaction_id))
    else
      let amountAndViolations : ℚ × List String :=
        match transactionQ with
        | none => ((5000 : ℚ), ["Transaction not found in system"])
        | some tx => (tx.amount, [])
      let amount_to_reverse := amountAndViolations.1
      let violations := amountAndViolations.2
      let previous_balance := wallet.balance
      let tryOutcome : Except ServiceError (ℚ × List Wallet) :=
        match creditOp req.wallet_id amount_to_reverse ws with
        | .error e => .error e
        | .ok ws' =>
          match getWallet ws' req.wallet_id with
          | none => .error (.walletNotFound req.wallet_id)
          | some w' => .ok (w'.balance, ws')
      let outcome : ClawbackStatus × String × ℚ × List Wallet :=
        match tryOutcome with
        | .ok (nb, ws') =>
          (.executed, generateClawbackExplanation req.reason amount_to_reverse .executed,
            nb, ws')
        | .error e => (.failed, "Clawback failed: " ++ e.message, previous_balance, ws)
      let record : ClawbackRecord :=
        { clawback_id := cs.next_clawback_id
          transaction_id := req.transaction_id
          wallet_id := req.wallet_id
          amount := amount_to_reverse
          reason := req.reason
          status := outcome.1
          explanation := outcome.2.1 }
      let cs' : ClawbackState :=
        { cs with
          clawbacks := cs.clawbacks ++ [record]
          next_clawback_id := cs.next_clawback_id + 1 }
      .ok ({ clawback_id := record.clawback_id
             transaction_id := req.transaction_id
             wallet_id := req.wallet_id
             status := outcome.1
             reason := req.reason
             amount_reversed := amount_to_reverse
             previous_balance := previous_balance
             new_balance := outcome.2.2.1
             explanation := outcome.2.1
             violations := violations },
           cs', outcome.2.2.2)

/-- `execute_clawback` as deployed: the credit collaborator is the in-memory
wallet service. -/
def executeClawbackReal (cs : ClawbackState) (ws : List Wallet)
    (req : ClawbackRequest) :
    Except ServiceError (ClawbackResult × ClawbackState × List Wallet) :=
  executeClawback walletCredit cs ws req

/-- `register_transaction`: upsert into the mock transaction store.  Defined
for completeness of the embedding; no route or service calls it. -/
def registerTransaction (cs : ClawbackState) (t : Transaction) : ClawbackState :=
  { cs with
    transactions :=
      cs.transactions.filter (fun x => !(x.transaction_id == t.transaction_id)) ++ [t] }

/-- The clawback-service states reachable through the public HTTP API
(`backend/app/routes/clawback.py`): the service starts empty and the only
mutating endpoint is `POST /clawback/execute`; `GET /clawback/history` and
`GET /clawback/health` read without mutating, and no code path calls
`register_transaction`.  A failed execution leaves the state unchanged
(the exception is raised before any store write). -/
inductive ClawbackReachable : ClawbackState → Prop where
  | init : ClawbackReachable initialClawbackState
  | execute (cs : ClawbackState) (ws : List Wallet) (req : ClawbackRequest)
      (res : ClawbackResult) (cs' : ClawbackState) (ws' : List Wallet)
      (h : ClawbackReachable cs)
      (hstep : executeClawbackReal cs ws req = .ok (res, cs', ws')) :
      ClawbackReachable cs'

/-! ### Helper lemmas -/

/-- Unfolding of `strContains` to list-infix. -/
theorem strContains_iff {hay needle : String} :
    strContains hay needle = true ↔ needle.data <:+: hay.data := by
  simp [strContains]

/-- A substring of a part is a substring of any surrounding concatenation. -/
theorem strContains_append_of (pre post hay needle : String)
    (h : strContains hay needle = true) :
    strContains (pre ++ hay ++ post) needle = true := by
  rw [strContains_iff] at h ⊢
  refine h.trans ⟨pre.data, post.data, ?_⟩
  simp

/-- The orchestrator loop evaluates exactly the effective policies, in
order, and collects exactly their violations. -/
theorem evalLoop_eq (t : Transaction) (now : Int) (l : List Policy) :
    evalLoop t now l =
      ((l.filter (effectiveB now)).filterMap (fun p => evaluatePolicy t p now),
       (l.filter (effectiveB now)).map (·.policy_id)) := by
  induction l with
  | nil => rfl
  | cons p rest ih =>
    by_cases heff : effectiveB now p
    · cases hev : evaluatePolicy t p now <;>
        simp [evalLoop, heff, ih, hev, List.filter_cons, List.filterMap_cons]
    · simp [evalLoop, heff, ih, List.filter_cons]

/-- The violations field of a validation result. -/
theorem validate_violations (t : Transaction) (ps : List Policy) (now : Int)
    (hist : List HistoryEntry) :
    (validateTransaction t ps now hist).1.violations =
      ((sortPolicies ps).filter (effectiveB now)).filterMap
        (fun p => evaluatePolicy t p now) := by
  simp [validateTransaction, evalLoop_eq]

/-- The evaluated-policies field of a validation result. -/
theorem validate_policies_evaluated (t : Transaction) (ps : List Policy) (now : Int)
    (hist : List HistoryEntry) :
    (validateTransaction t ps now hist).1.policies_evaluated =
      ((sortPolicies ps).filter (effectiveB now)).map (·.policy_id) := by
  simp [validateTransaction, evalLoop_eq]

/-- The status of a validation result is `BLOCKED` exactly when some
violation was collected. -/
theorem validate_status (t : Transaction) (ps : List Policy) (now : Int)
    (hist : List HistoryEntry) :
    (validateTransaction t ps now hist).1.status =
      (if (validateTransaction t ps now hist).1.violations = []
       then TransactionStatus.approved else TransactionStatus.blocked) := by
  simp [validateTransaction]

/-! ### C3: category check precedes the amount check and short-circuits -/

set_option linter.unusedVariables false in
/-- C3: for every transaction and effective policy violating both the
allowed-categories check and the max_amount check, the Rule Evaluator
returns exactly one violation, and it is the category violation: the check
order puts category (check 2) before amount (check 3) and only the first
failing check is reported. -/
theorem evaluatePolicy_category_shortCircuit (t : Transaction) (p : Policy)
    (now : Int) (m : ℚ)
    (hexp : p.isExpired now = false)
    (hcats : p.rules.allowed_categories ≠ [])
    (hcat : t.category ∉ p.rules.allowed_categories)
    (hmax : p.rules.max_amount = some m)
    (hamt : t.amount > m) :
    evaluatePolicy t p now = some (categoryViolationMsg p t) := by
  simp [evaluatePolicy, hexp, hcats, hcat]

/-- Witness for C3 at a concrete both-checks-violated input. -/
theorem evaluatePolicy_category_shortCircuit_witness :
    evaluatePolicy
        { transaction_id := 2, wallet_id := 1, amount := 60, category := "fun" }
        { policy_id := 3
          name := "Both"
          rules := { allowed_categories := ["education"], max_amount := some 50 } }
        0 =
      some (categoryViolationMsg
        { policy_id := 3
          name := "Both"
          rules := { allowed_categories := ["education"], max_amount := some 50 } }
        { transaction_id := 2, wallet_id := 1, amount := 60, category := "fun" }) :=
  evaluatePolicy_category_shortCircuit _ _ _ 50 (by decide) (by decide) (by decide)
    (by decide) (by decide)

/-! ### C7: validation is deterministic -/

/-- C7: for every (transaction, policies) pair, two calls to
`validate_transaction` on the same inputs — whatever the service's
accumulated transaction history is at each call, in particular on the state
left by the first call — return identical status, violations and
policies_evaluated: the decision reads nothing from the mutable history. -/
theorem validateTransaction_deterministic (t : Transaction) (ps : List Policy)
    (now : Int) (h1 h2 : List HistoryEntry) :
    (validateTransaction t ps now h1).1.status =
        (validateTransaction t ps now h2).1.status ∧
      (validateTransaction t ps now h1).1.violations =
        (validateTransaction t ps now h2).1.violations ∧
      (validateTransaction t ps now h1).1.policies_evaluated =
        (validateTransaction t ps now h2).1.policies_evaluated :=
  ⟨rfl, rfl, rfl⟩

/-! ### C8: policy creation reports all violated schema constraints -/

/-- C8: for every policy-creation request whose rules violate the schema
constraints, `create_policy` fails synchronously with a
`ValidationException` carrying the structured list of all violated
constraints, not just the first. -/
theorem createPolicy_reports_all_schema_errors (store : List Policy)
    (pd : PolicyCreate) (newId : Nat)
    (h : (policyOfCreate pd newId).validateSchema ≠ []) :
    createPolicy store pd newId =
      .error (.validationException
        ("Policy schema validation failed: " ++
          String.intercalate ", " (policyOfCreate pd newId).validateSchema)
        (.errors (policyOfCreate pd newId).validateSchema)) := by
  simp [createPolicy, h]

/-- Witness for C8: a request violating both the positivity constraint and
the cap-vs-limit constraint is rejected with both errors listed. -/
theorem createPolicy_reports_all_schema_errors_witness :
    createPolicy []
        { name := "Bad", rules := { max_amount := some 0, per_transaction_cap := some 5 } }
        1 =
      .error (.validationException
        ("Policy schema validation failed: max_amount must be positive, " ++
          "per_transaction_cap cannot exceed max_amount")
        (.errors ["max_amount must be positive",
                  "per_transaction_cap cannot exceed max_amount"])) :=
  (createPolicy_reports_all_schema_errors []
      { name := "Bad", rules := { max_amount := some 0, per_transaction_cap := some 5 } }
      1 (by decide)).trans rfl

/-- A substring of the left part survives appending on the right. -/
theorem strContains_append_left (hay post needle : String)
    (h : strContains hay needle = true) :
    strContains (hay ++ post) needle = true := by
  rw [strContains_iff] at h ⊢
  exact h.trans ⟨[], post.data, by simp⟩

/-- A substring of the right part survives prepending on the left. -/
theorem strContains_append_right (pre hay needle : String)
    (h : strContains hay needle = true) :
    strContains (pre ++ hay) needle = true := by
  rw [strContains_iff] at h ⊢
  exact h.trans ⟨pre.data, [], by simp⟩

/-! ### C9: a missing location under a geo-fence policy -/

/-- The C9 counterexample policy: a geo-fence together with a category
restriction the transaction also violates. -/
def geoCexPolicy : Policy :=
  { policy_id := 7
    name := "EduOnly"
    rules := { allowed_categories := ["food"], geo_fence := ["IN-DL"] } }

/-- The C9 counterexample transaction: no location and a category outside
the allowed list. -/
def geoCexTx : Transaction :=
  { transaction_id := 1
    wallet_id := 1
    amount := 1
    category := "travel"
    location := none }

set_option maxRecDepth 4096 in
/-- C9 as stated is false: `geoCexPolicy` is effective with a non-empty
geo_fence and `geoCexTx.location` is `None`, yet the validation result —
though BLOCKED — contains no violation mentioning "location required": the
category check fires first and short-circuits the policy's geo check. -/
theorem validateTransaction_location_counterexample :
    effectiveB 0 geoCexPolicy = true ∧
      geoCexPolicy.rules.geo_fence ≠ [] ∧
      geoCexTx.location = none ∧
      (validateTransaction geoCexTx [geoCexPolicy] 0 []).1.status =
        TransactionStatus.blocked ∧
      (validateTransaction geoCexTx [geoCexPolicy] 0 []).1.violations.all
        (fun v => !(strContains v "location required")) = true := by
  refine ⟨by decide, by decide, by decide, by decide, by decide⟩

/-- C9 amended: for every effective policy with a non-empty geo_fence whose
earlier checks (category, max_amount, per-transaction cap) pass on the
transaction, and every transaction whose location is absent,
`validate_transaction` returns BLOCKED with a violation whose text contains
"location required" — a missing location is itself a violation, not a
skip. -/
theorem validateTransaction_location_required (t : Transaction)
    (ps : List Policy) (now : Int) (hist : List HistoryEntry) (p : Policy)
    (hmem : p ∈ ps)
    (hact : p.is_active = true)
    (hexp : p.isExpired now = false)
    (hgeo : p.rules.geo_fence ≠ [])
    (hloc : t.location = none)
    (hcat : p.rules.allowed_categories = [] ∨ t.category ∈ p.rules.allowed_categories)
    (hmax : ∀ m, p.rules.max_amount = some m → t.amount ≤ m)
    (hcap : ∀ c, p.rules.per_transaction_cap = some c → t.amount ≤ c) :
    (validateTransaction t ps now hist).1.status = TransactionStatus.blocked ∧
      ∃ v ∈ (validateTransaction t ps now hist).1.violations,
        strContains v "location required" = true := by
  have heval : evaluatePolicy t p now = some (geoMissingMsg p) := by
    have hc : ¬(p.rules.allowed_categories ≠ [] ∧
        t.category ∉ p.rules.allowed_categories) := by
      rcases hcat with h | h
      · exact fun hcon => hcon.1 h
      · exact fun hcon => hcon.2 h
    have hgeoStep :
        evaluatePolicy.evaluatePolicyFromGeo t p = some (geoMissingMsg p) := by
      simp [evaluatePolicy.evaluatePolicyFromGeo, hgeo, hloc, optStrTruthy]
    have hcapStep :
        evaluatePolicy.evaluatePolicyFromCap t p = some (geoMissingMsg p) := by
      cases hc' : p.rules.per_transaction_cap with
      | none => simp [evaluatePolicy.evaluatePolicyFromCap, hc', hgeoStep]
      | some c =>
        simp [evaluatePolicy.evaluatePolicyFromCap, hc', not_lt.mpr (hcap c hc'),
          hgeoStep]
    cases hm : p.rules.max_amount with
    | none => simp [evaluatePolicy, hexp, hc, hm, hcapStep]
    | some m => simp [evaluatePolicy, hexp, hc, hm, not_lt.mpr (hmax m hm), hcapStep]
  have hmem' : p ∈ (sortPolicies ps).filter (effectiveB now) := by
    refine List.mem_filter.mpr ⟨?_, ?_⟩
    · exact ((List.perm_insertionSort priorityLe ps).mem_iff).mpr hmem
    · simp [effectiveB, hact, hexp]
  have hv : geoMissingMsg p ∈ (validateTransaction t ps now hist).1.violations := by
    rw [validate_violations]
    exact List.mem_filterMap.mpr ⟨p, hmem', heval⟩
  refine ⟨?_, geoMissingMsg p, hv, ?_⟩
  · rw [validate_status, if_neg (List.ne_nil_of_mem hv)]
  · show strContains
      ("Policy '" ++ p.name ++
        "': Transaction location required but not provided. " ++
        "Allowed regions: " ++ strListRender p.rules.geo_fence)
      "location required" = true
    apply strContains_append_left
    apply strContains_append_left
    apply strContains_append_right
    decide

/-- Witness for C9 amended: one geo-fence-only policy, a location-less
transaction. -/
theorem validateTransaction_location_required_witness :
    (validateTransaction geoCexTx
        [{ policy_id := 8, name := "GeoOnly", rules := { geo_fence := ["IN-DL"] } }]
        0 []).1.status = TransactionStatus.blocked ∧
      ∃ v ∈ (validateTransaction geoCexTx
          [{ policy_id := 8, name := "GeoOnly", rules := { geo_fence := ["IN-DL"] } }]
          0 []).1.violations,
        strContains v "location required" = true :=
  validateTransaction_location_required geoCexTx _ 0 [] _
    (List.mem_singleton.mpr rfl) rfl rfl (by decide) rfl (Or.inl rfl)
    (fun m hm => by simp at hm) (fun c hc => by simp at hc)

/-! ### Clawback projections and helper lemmas -/

/-- Projects the result record out of a successful clawback execution. -/
def clawbackOkResult (x : Except ServiceError (ClawbackResult × ClawbackState × List Wallet)) :
    Option ClawbackResult :=
  match x with
  | .ok (r, _, _) => some r
  | .error _ => none

/-- Projects the post-state out of a successful clawback execution. -/
def clawbackOkState (x : Except ServiceError (ClawbackResult × ClawbackState × List Wallet)) :
    Option ClawbackState :=
  match x with
  | .ok (_, s, _) => some s
  | .error _ => none

/-- Projects the post-execution wallet store out of a successful clawback
execution. -/
def clawbackOkWallets (x : Except ServiceError (ClawbackResult × ClawbackState × List Wallet)) :
    Option (List Wallet) :=
  match x with
  | .ok (_, _, ws) => some ws
  | .error _ => none

/-- `execute_clawback` never writes the service's transaction store. -/
theorem executeClawback_ok_transactions
    (creditOp : Nat → ℚ → List Wallet → Except ServiceError (List Wallet))
    (cs : ClawbackState) (ws : List Wallet) (req : ClawbackRequest)
    (res : ClawbackResult) (cs' : ClawbackState) (ws' : List Wallet)
    (hstep : executeClawback creditOp cs ws req = .ok (res, cs', ws')) :
    cs'.transactions = cs.transactions := by
  cases hw : getWallet ws req.wallet_id with
  | none => simp [executeClawback, hw] at hstep
  | some w =>
    cases htxq : cs.transactions.find? (·.transaction_id == req.transaction_id) with
    | none =>
      cases hf : req.force with
      | false => simp [executeClawback, hw, htxq, hf] at hstep
      | true =>
        simp only [executeClawback, hw, htxq, hf, Bool.true_eq_false, and_false,
          if_false, Option.isNone_none, Except.ok.injEq, Prod.mk.injEq] at hstep
        obtain ⟨-, hcs, -⟩ := hstep
        rw [← hcs]
    | some tx =>
      simp only [executeClawback, hw, htxq, Option.isNone_some, Bool.false_eq_true,
        false_and, if_false, Except.ok.injEq, Prod.mk.injEq] at hstep
      obtain ⟨-, hcs, -⟩ := hstep
      rw [← hcs]

/-! ### C5: a failing credit step is contained -/

/-- C5: when the credit collaborator fails, `execute_clawback` does not
propagate the exception: it returns a `ClawbackResult` (hence `.ok`) whose
status is FAILED and whose previous and new balances are both the wallet's
untouched balance, stores a FAILED `ClawbackRecord` (appended to the audit
list), and leaves the wallet store unchanged. -/
theorem executeClawback_credit_failure
    (creditOp : Nat → ℚ → List Wallet → Except ServiceError (List Wallet))
    (cs : ClawbackState) (ws : List Wallet) (req : ClawbackRequest)
    (w : Wallet) (e : ServiceError)
    (hw : getWallet ws req.wallet_id = some w)
    (hproceed : req.force = true ∨
      cs.transactions.find? (·.transaction_id == req.transaction_id) ≠ none)
    (hcredit : ∀ a, creditOp req.wallet_id a ws = .error e) :
    (clawbackOkResult (executeClawback creditOp cs ws req)).map (·.status) =
        some ClawbackStatus.failed ∧
      (clawbackOkResult (executeClawback creditOp cs ws req)).map
          (·.previous_balance) = some w.balance ∧
      (clawbackOkResult (executeClawback creditOp cs ws req)).map
          (·.new_balance) = some w.balance ∧
      clawbackOkWallets (executeClawback creditOp cs ws req) = some ws ∧
      (clawbackOkState (executeClawback creditOp cs ws req)).map
          (·.transactions) = some cs.transactions ∧
      (clawbackOkState (executeClawback creditOp cs ws req)).map
          (fun s => s.clawbacks.map (·.status)) =
        some (cs.clawbacks.map (·.status) ++ [ClawbackStatus.failed]) := by
  cases htxq : cs.transactions.find? (·.transaction_id == req.transaction_id) with
  | none =>
    have hf : req.force = true := by
      rcases hproceed with h | h
      · exact h
      · exact absurd htxq h
    refine ⟨?_, ?_, ?_, ?_, ?_, ?_⟩ <;>
      simp [executeClawback, hw, htxq, hf, hcredit, clawbackOkResult,
        clawbackOkState, clawbackOkWallets]
  | some tx =>
    refine ⟨?_, ?_, ?_, ?_, ?_, ?_⟩ <;>
      simp [executeClawback, hw, htxq, hcredit, clawbackOkResult,
        clawbackOkState, clawbackOkWallets]

/-- Witness for C5: a credit collaborator that always fails, on a concrete
forced request over a concrete wallet. -/
theorem executeClawback_credit_failure_witness :
    (clawbackOkResult (executeClawback
          (fun _ _ _ => .error (.validationException "boom" .noDetails))
          initialClawbackState [{ wallet_id := 5, balance := 1000 }]
          { transaction_id := 99, wallet_id := 5, force := true })).map (·.status) =
        some ClawbackStatus.failed ∧
      (clawbackOkResult (executeClawback
          (fun _ _ _ => .error (.validationException "boom" .noDetails))
          initialClawbackState [{ wallet_id := 5, balance := 1000 }]
          { transaction_id := 99, wallet_id := 5, force := true })).map
          (·.previous_balance) = some (1000 : ℚ) ∧
      (clawbackOkResult (executeClawback
          (fun _ _ _ => .error (.validationException "boom" .noDetails))
          initialClawbackState [{ wallet_id := 5, balance := 1000 }]
          { transaction_id := 99, wallet_id := 5, force := true })).map
          (·.new_balance) = some (1000 : ℚ) ∧
      clawbackOkWallets (executeClawback
          (fun _ _ _ => .error (.validationException "boom" .noDetails))
          initialClawbackState [{ wallet_id := 5, balance := 1000 }]
          { transaction_id := 99, wallet_id := 5, force := true }) =
        some [{ wallet_id := 5, balance := 1000 }] ∧
      (clawbackOkState (executeClawback
          (fun _ _ _ => .error (.validationException "boom" .noDetails))
          initialClawbackState [{ wallet_id := 5, balance := 1000 }]
          { transaction_id := 99, wallet_id := 5, force := true })).map
          (·.transactions) = some [] ∧
      (clawbackOkState (executeClawback
          (fun _ _ _ => .error (.validationException "boom" .noDetails))
          initialClawbackState [{ wallet_id := 5, balance := 1000 }]
          { transaction_id := 99, wallet_id := 5, force := true })).map
          (fun s => s.clawbacks.map (·.status)) = some [ClawbackStatus.failed] :=
  executeClawback_credit_failure
    (fun _ _ _ => .error (.validationException "boom" .noDetails))
    initialClawbackState [{ wallet_id := 5, balance := 1000 }]
    { transaction_id := 99, wallet_id := 5, force := true }
    { wallet_id := 5, balance := 1000 } (.validationException "boom" .noDetails)
    rfl (Or.inl rfl) (fun _ => rfl)

/-! ### C6: unknown transaction — ValidationException or fixed fallback -/

/-- C6 as stated is false in its second half: the fallback amount of a
forced clawback is not caller-supplied — `ClawbackRequest` carries no
amount field at all — but the constant mock amount `5000.0`: two forced
requests differing in every caller-suppliable field (transaction id, wallet
id, reason) against different wallets both reverse exactly `5000.0`. -/
theorem executeClawback_forced_fixed_amount_counterexample :
    (clawbackOkResult (executeClawbackReal initialClawbackState
          [{ wallet_id := 5, balance := 1000 }]
          { transaction_id := 99, wallet_id := 5, force := true })).map
        (·.amount_reversed) = some (5000 : ℚ) ∧
      (clawbackOkResult (executeClawbackReal initialClawbackState
            [{ wallet_id := 6, balance := 20 }]
            { transaction_id := 77
              wallet_id := 6
              reason := .manualReversal
              force := true })).map
          (·.amount_reversed) = some (5000 : ℚ) := by
  refine ⟨by decide, by decide⟩

/-- Shared worker: on an existing wallet, a request whose transaction id is
unknown either raises the `ValidationException` (no force) or reverses the
mock `5000.0` (force). -/
theorem executeClawback_missing_tx_aux (cs : ClawbackState)
    (ws : List Wallet) (req : ClawbackRequest) (w : Wallet)
    (hw : getWallet ws req.wallet_id = some w)
    (htx : cs.transactions.find? (·.transaction_id == req.transaction_id) = none) :
    (req.force = false →
      executeClawbackReal cs ws req = .error (.validationException
        ("Transaction " ++ toString req.transaction_id ++ " not found")
        (.transactionId req.transaction_id))) ∧
    (req.force = true →
      (clawbackOkResult (executeClawbackReal cs ws req)).map (·.amount_reversed) =
        some (5000 : ℚ)) := by
  constructor
  · intro hf
    simp [executeClawbackReal, executeClawback, hw, htx, hf]
  · intro hf
    simp [executeClawbackReal, executeClawback, hw, htx, hf, clawbackOkResult]

/-- C6 amended: for every clawback request on an existing wallet whose
transaction id is absent from the in-memory transaction history, if the
force flag is not set `execute_clawback` fails with a
`ValidationException`; if the force flag is set, the amount reversed is the
fixed mock fallback `5000.0` (not a caller-supplied value). -/
theorem executeClawback_unknown_transaction (cs : ClawbackState)
    (ws : List Wallet) (req : ClawbackRequest) (w : Wallet)
    (hw : getWallet ws req.wallet_id = some w)
    (htx : cs.transactions.find? (·.transaction_id == req.transaction_id) = none) :
    (req.force = false →
      executeClawbackReal cs ws req = .error (.validationException
        ("Transaction " ++ toString req.transaction_id ++ " not found")
        (.transactionId req.transaction_id))) ∧
    (req.force = true →
      (clawbackOkResult (executeClawbackReal cs ws req)).map (·.amount_reversed) =
        some (5000 : ℚ)) :=
  executeClawback_missing_tx_aux cs ws req w hw htx

/-- Witness for C6 amended: a concrete forced request with an empty
transaction history reverses exactly `5000.0`. -/
theorem executeClawback_unknown_transaction_witness :
    (clawbackOkResult (executeClawbackReal initialClawbackState
          [{ wallet_id := 5, balance := 1000 }]
          { transaction_id := 99, wallet_id := 5, force := true })).map
        (·.amount_reversed) = some (5000 : ℚ) :=
  (executeClawback_unknown_transaction initialClawbackState
      [{ wallet_id := 5, balance := 1000 }]
      { transaction_id := 99, wallet_id := 5, force := true }
      { wallet_id := 5, balance := 1000 } rfl rfl).2 rfl

/-! ### C10: the clawback engine's own transaction store stays empty -/

/-- C10: in every state reachable through the public API the clawback
service's transaction store is empty (`register_transaction` has no
caller), so on an existing wallet every non-forced `execute_clawback`
fails with a `ValidationException`, and every forced clawback reverses the
fixed fallback amount `5000.0`. -/
theorem clawbackService_transactions_empty (s : ClawbackState)
    (h : ClawbackReachable s) :
    s.transactions = [] ∧
      (∀ (ws : List Wallet) (req : ClawbackRequest) (w : Wallet),
        getWallet ws req.wallet_id = some w → req.force = false →
        executeClawbackReal s ws req = .error (.validationException
          ("Transaction " ++ toString req.transaction_id ++ " not found")
          (.transactionId req.transaction_id))) ∧
      (∀ (ws : List Wallet) (req : ClawbackRequest) (w : Wallet),
        getWallet ws req.wallet_id = some w → req.force = true →
        (clawbackOkResult (executeClawbackReal s ws req)).map (·.amount_reversed) =
          some (5000 : ℚ)) := by
  have htrans : s.transactions = [] := by
    induction h with
    | init => rfl
    | execute cs ws req res cs' ws' h hstep ih =>
      rw [executeClawback_ok_transactions walletCredit cs ws req res cs' ws' hstep]
      exact ih
  refine ⟨htrans, ?_, ?_⟩
  · intro ws req w hw hf
    exact ((executeClawback_missing_tx_aux s ws req w hw (by rw [htrans]; rfl)).1) hf
  · intro ws req w hw hf
    exact ((executeClawback_missing_tx_aux s ws req w hw (by rw [htrans]; rfl)).2) hf

/-- Witness for C10: the initial state is reachable, and a concrete forced
request against it reverses `5000.0`. -/
theorem clawbackService_transactions_empty_witness :
    (clawbackOkResult (executeClawbackReal initialClawbackState
          [{ wallet_id := 5, balance := 1000 }]
          { transaction_id := 99, wallet_id := 5, force := true })).map
        (·.amount_reversed) = some (5000 : ℚ) ∧
      initialClawbackState.transactions = [] :=
  ⟨(clawbackService_transactions_empty initialClawbackState
      ClawbackReachable.init).2.2 [{ wallet_id := 5, balance := 1000 }]
      { transaction_id := 99, wallet_id := 5, force := true }
      { wallet_id := 5, balance := 1000 } rfl rfl,
    (clawbackService_transactions_empty initialClawbackState
      ClawbackReachable.init).1⟩

/-! ### C2: stable ascending priority ordering -/

/-- Inserting a policy into a list places it before every policy of equal
priority, and moves past only strictly lower priorities, so the
equal-priority subsequence gains the new element at its front. -/
theorem filter_key_orderedInsert (x : Policy) (l : List Policy) (k : Int) :
    (List.orderedInsert priorityLe x l).filter (fun p => p.priority == k) =
      if x.priority == k then
        x :: l.filter (fun p => p.priority == k)
      else l.filter (fun p => p.priority == k) := by
  induction l with
  | nil =>
    by_cases hxk : x.priority = k <;>
      simp [List.orderedInsert, List.filter_cons, hxk]
  | cons b l' ih =>
    by_cases hxb : priorityLe x b
    · simp only [List.orderedInsert, if_pos hxb]
      by_cases hxk : x.priority = k <;> simp [List.filter_cons, hxk]
    · simp only [List.orderedInsert, if_neg hxb]
      have hblt : b.priority < x.priority := lt_of_not_le hxb
      by_cases hxk : x.priority = k
      · have hbk : b.priority ≠ k := by omega
        simp [List.filter_cons, hbk, ih, hxk]
      · by_cases hbk : b.priority = k <;> simp [List.filter_cons, hbk, ih, hxk]

/-- Stability of the priority sort: for every priority value, the policies
carrying it appear in the sorted list exactly in input order. -/
theorem filter_key_sortPolicies (l : List Policy) (k : Int) :
    (sortPolicies l).filter (fun p => p.priority == k) =
      l.filter (fun p => p.priority == k) := by
  induction l with
  | nil => rfl
  | cons x l' ih =>
    have ih' : (List.insertionSort priorityLe l').filter (fun p => p.priority == k) =
        l'.filter (fun p => p.priority == k) := ih
    show (List.orderedInsert priorityLe x (List.insertionSort priorityLe l')).filter
        (fun p => p.priority == k) = _
    rw [filter_key_orderedInsert]
    by_cases hxk : x.priority = k <;> simp [List.filter_cons, hxk, ih']

/-- Two lists of policies with strictly increasing priorities that are
permutations of each other are equal. -/
theorem eq_of_perm_of_pairwise_priority_lt {l₁ l₂ : List Policy}
    (hp : l₁.Perm l₂)
    (h₁ : l₁.Pairwise (fun p q => p.priority < q.priority))
    (h₂ : l₂.Pairwise (fun p q => p.priority < q.priority)) : l₁ = l₂ := by
  haveI : IsAntisymm Policy (fun p q => p.priority < q.priority) :=
    ⟨fun a b hab hba => absurd (hab.trans hba) (lt_irrefl a.priority)⟩
  exact List.eq_of_perm_of_sorted hp h₁ h₂

/-- C2: `validate_transaction` evaluates exactly the effective policies, in
ascending priority order with ties kept in input order, so
`policies_evaluated` is the stable priority sort of the effective policies;
for pairwise-distinct priorities the outcome is independent of the input
ordering. -/
theorem validateTransaction_priority_order (t : Transaction) (ps : List Policy)
    (now : Int) (hist : List HistoryEntry) :
    (validateTransaction t ps now hist).1.policies_evaluated =
        ((sortPolicies ps).filter (effectiveB now)).map (·.policy_id) ∧
      ((sortPolicies ps).filter (effectiveB now)).Pairwise priorityLe ∧
      ((sortPolicies ps).filter (effectiveB now)).Perm (ps.filter (effectiveB now)) ∧
      (∀ k : Int,
        (((sortPolicies ps).filter (effectiveB now)).filter
            (fun p => p.priority == k)) =
          ((ps.filter (effectiveB now)).filter (fun p => p.priority == k))) ∧
      (∀ ps' : List Policy, ps.Perm ps' →
        ps.Pairwise (fun p q => p.priority ≠ q.priority) →
        (validateTransaction t ps' now hist).1.policies_evaluated =
          (validateTransaction t ps now hist).1.policies_evaluated) := by
  have hsorted : ∀ l : List Policy,
      ((sortPolicies l).filter (effectiveB now)).Pairwise priorityLe :=
    fun l => (List.sorted_insertionSort priorityLe l).filter (effectiveB now)
  have hperm : ∀ l : List Policy,
      ((sortPolicies l).filter (effectiveB now)).Perm (l.filter (effectiveB now)) :=
    fun l => (List.perm_insertionSort priorityLe l).filter (effectiveB now)
  refine ⟨validate_policies_evaluated t ps now hist, hsorted ps, hperm ps, ?_, ?_⟩
  · intro k
    rw [List.filter_comm, filter_key_sortPolicies, List.filter_comm]
  · intro ps' hpp hdist
    rw [validate_policies_evaluated, validate_policies_evaluated]
    have hne : ∀ l : List Policy, ps.Perm l →
        ((sortPolicies l).filter (effectiveB now)).Pairwise
          (fun p q => p.priority ≠ q.priority) := by
      intro l hl
      have h1 : (sortPolicies l).Pairwise (fun p q => p.priority ≠ q.priority) :=
        (List.Perm.pairwise_iff (fun h => h.symm)
          ((hl.trans (List.perm_insertionSort priorityLe l).symm))).mp hdist
      exact h1.filter (effectiveB now)
    have hlt : ∀ l : List Policy, ps.Perm l →
        ((sortPolicies l).filter (effectiveB now)).Pairwise
          (fun p q => p.priority < q.priority) :=
      fun l hl => ((hsorted l).and (hne l hl)).imp
        (fun h => lt_of_le_of_ne h.1 h.2)
    have heq : ((sortPolicies ps').filter (effectiveB now)) =
        ((sortPolicies ps).filter (effectiveB now)) := by
      refine eq_of_perm_of_pairwise_priority_lt ?_ (hlt ps' hpp) (hlt ps (List.Perm.refl ps))
      exact (hperm ps').trans ((hpp.symm.filter (effectiveB now)).trans (hperm ps).symm)
    rw [heq]

/-- The C2 witness transaction. -/
def priorityTx : Transaction :=
  { transaction_id := 9, wallet_id := 1, amount := 1, category := "misc" }

/-- C2 witness policies with priorities 10, 5 and 1. -/
def priorityP10 : Policy := { policy_id := 1, name := "P10", priority := 10 }

/-- See `priorityP10`. -/
def priorityP5 : Policy := { policy_id := 2, name := "P5", priority := 5 }

/-- See `priorityP10`. -/
def priorityP1 : Policy := { policy_id := 3, name := "P1", priority := 1 }

/-- Witness for C2: priorities [10, 5, 1] are evaluated as
[priority-1, priority-5, priority-10], and a permuted input yields the same
evaluation order. -/
theorem validateTransaction_priority_order_witness :
    (validateTransaction priorityTx [priorityP10, priorityP5, priorityP1] 0
        []).1.policies_evaluated = [3, 2, 1] ∧
      (validateTransaction priorityTx [priorityP1, priorityP10, priorityP5] 0
          []).1.policies_evaluated =
        (validateTransaction priorityTx [priorityP10, priorityP5, priorityP1] 0
            []).1.policies_evaluated :=
  ⟨(validateTransaction_priority_order priorityTx
      [priorityP10, priorityP5, priorityP1] 0 []).1.trans (by decide),
    (validateTransaction_priority_order priorityTx
      [priorityP10, priorityP5, priorityP1] 0 []).2.2.2.2
      [priorityP1, priorityP10, priorityP5] (by decide) (by decide)⟩

/-! ### Conflict-analyzer helper lemmas -/

/-- Every string contains itself. -/
theorem strContains_refl (s : String) : strContains s s = true :=
  strContains_iff.mpr ⟨[], [], by simp⟩

/-- `listDisjoint` unfolded to membership. -/
theorem listDisjoint_iff {a b : List String} :
    listDisjoint a b = true ↔ ∀ x ∈ a, x ∉ b := by
  simp [listDisjoint, List.all_eq_true]

/-- Set disjointness is symmetric. -/
theorem listDisjoint_comm (a b : List String) :
    listDisjoint a b = listDisjoint b a := by
  rw [Bool.eq_iff_iff, listDisjoint_iff, listDisjoint_iff]
  exact ⟨fun h x hxb hxa => h x hxa hxb, fun h x hxa hxb => h x hxb hxa⟩

/-- A non-empty list is not disjoint from itself. -/
theorem listDisjoint_self_ne (l : List String) (h : l ≠ []) :
    listDisjoint l l = false := by
  cases l with
  | nil => exact absurd rfl h
  | cons x xs => simp [listDisjoint]

/-- The category-disjointness message mentions the existing policy's name. -/
theorem strContains_categoryConflictMsg (p q : Policy) :
    strContains (categoryConflictMsg p q) q.name = true := by
  unfold categoryConflictMsg
  apply strContains_append_left
  apply strContains_append_left
  apply strContains_append_left
  exact strContains_append_right _ _ _ (strContains_refl q.name)

/-- The geo-disjointness message mentions the existing policy's name. -/
theorem strContains_geoConflictMsg (p q : Policy) :
    strContains (geoConflictMsg p q) q.name = true := by
  unfold geoConflictMsg
  apply strContains_append_left
  apply strContains_append_left
  apply strContains_append_left
  exact strContains_append_right _ _ _ (strContains_refl q.name)

/-- A policy whose rules carry nothing but (possibly) allowed categories
and a geo fence never conflicts with itself: the category and geo sets are
not disjoint from themselves, and every other rule reads an empty field. -/
theorem pairConflicts_self_empty (p : Policy)
    (hmax : p.rules.max_amount = none)
    (hcap : p.rules.per_transaction_cap = none)
    (hwl : p.rules.merchant_whitelist = [])
    (hexp : p.rules.expiry = none) :
    pairConflicts p p = [] := by
  by_cases hc : p.rules.allowed_categories = [] <;>
    by_cases hg : p.rules.geo_fence = [] <;>
      simp [pairConflicts, hmax, hcap, hwl, hexp, hc, hg,
        listDisjoint_self_ne]

/-- The pair loop of `detect_all_conflicts` on a two-policy store of active
policies: one comparison, of the first store entry as "new" against the
second as "existing", filtered by the existing policy's name. -/
theorem detectAllPairs_two (a b : Policy)
    (hA : a.is_active = true) (hB : b.is_active = true) :
    detectAllPairs [a, b] [a, b] =
      ((pairConflicts a a ++ pairConflicts a b).filter
          (fun c => strContains c b.name)).map
        (fun c =>
          { policy_a := a.policy_id
            policy_a_name := a.name
            policy_b := b.policy_id
            policy_b_name := b.name
            conflict_description := c
            severity := assessConflictSeverity c }) := by
  simp [detectAllPairs, detectConflictsList, hA, hB]

/-! ### C1: unordered-pair symmetry of conflict detection -/

/-- The C1 counterexample policies: two spending limits whose ratio trips
the asymmetric amount-disproportion rule in only one direction. -/
def ratioPolicyA : Policy :=
  { policy_id := 1, name := "PolicyAlpha", rules := { max_amount := some 100 } }

/-- See `ratioPolicyA`. -/
def ratioPolicyB : Policy :=
  { policy_id := 2, name := "PolicyBeta", rules := { max_amount := some 9 } }

set_option maxRecDepth 8192 in
/-- C1 as stated is false: `detect_all_conflicts` is order-dependent.  The
same two active policies produce no conflict when stored as [Alpha, Beta]
and one conflict when stored as [Beta, Alpha]: the amount-disproportion
rule only compares the earlier-stored policy's max_amount against 10% of
the later one's. -/
theorem detectAllConflicts_order_dependent_counterexample :
    (detectAllConflicts [ratioPolicyA, ratioPolicyB]).total_conflicts = 0 ∧
      (detectAllConflicts [ratioPolicyB, ratioPolicyA]).total_conflicts = 1 := by
  refine ⟨by decide, by decide⟩

/-- C1 amended: `detect_all_conflicts` evaluates each unordered pair of
active policies once, in store order, with the earlier-stored policy as
"new" and the later as "existing"; because the amount-disproportion,
cap-vs-limit and whitelist-vs-blacklist rules read different fields from
the two sides, the result in general depends on the store order.  For the
symmetric rules the report is order-independent: two active
category-restriction policies carrying no other rules yield the same
conflict count (one entry when their category sets are non-empty and
disjoint, none otherwise) whichever policy is stored first. -/
theorem detectAllConflicts_category_pair_symm (a b : Policy)
    (hA : a.is_active = true) (hB : b.is_active = true)
    (hta : a.policy_type = "category_restriction")
    (htb : b.policy_type = "category_restriction")
    (haf : a.rules.max_amount = none ∧ a.rules.per_transaction_cap = none ∧
      a.rules.geo_fence = [] ∧ a.rules.merchant_whitelist = [] ∧
      a.rules.merchant_blacklist = [] ∧ a.rules.expiry = none)
    (hbf : b.rules.max_amount = none ∧ b.rules.per_transaction_cap = none ∧
      b.rules.geo_fence = [] ∧ b.rules.merchant_whitelist = [] ∧
      b.rules.merchant_blacklist = [] ∧ b.rules.expiry = none) :
    (detectAllConflicts [a, b]).total_conflicts =
        (detectAllConflicts [b, a]).total_conflicts ∧
      (detectAllConflicts [a, b]).total_conflicts =
        (if a.rules.allowed_categories ≠ [] ∧ b.rules.allowed_categories ≠ [] ∧
            listDisjoint a.rules.allowed_categories b.rules.allowed_categories = true
         then 1 else 0) := by
  obtain ⟨hmaxa, hcapa, hgeoa, hwla, hbla, hexpa⟩ := haf
  obtain ⟨hmaxb, hcapb, hgeob, hwlb, hblb, hexpb⟩ := hbf
  have haa : pairConflicts a a = [] :=
    pairConflicts_self_empty a hmaxa hcapa hwla hexpa
  have hbb : pairConflicts b b = [] :=
    pairConflicts_self_empty b hmaxb hcapb hwlb hexpb
  have hchar : ∀ (p q : Policy), p.policy_type = "category_restriction" →
      q.policy_type = "category_restriction" →
      p.rules.max_amount = none → p.rules.per_transaction_cap = none →
      p.rules.geo_fence = [] → p.rules.merchant_whitelist = [] →
      q.rules.max_amount = none → q.rules.merchant_blacklist = [] →
      p.rules.expiry = none →
      pairConflicts p q =
        (if p.rules.allowed_categories ≠ [] ∧ q.rules.allowed_categories ≠ [] ∧
            listDisjoint p.rules.allowed_categories q.rules.allowed_categories = true
         then [categoryConflictMsg p q] else []) := by
    intro p q htp htq hm hc hg hw hqm hqb he
    by_cases hcond : p.rules.allowed_categories ≠ [] ∧
        q.rules.allowed_categories ≠ [] ∧
        listDisjoint p.rules.allowed_categories q.rules.allowed_categories = true
    · simp [pairConflicts, htp, htq, hm, hc, hg, hw, hqm, hqb, he, hcond,
        hcond.1, hcond.2.1, hcond.2.2]
    · simp [pairConflicts, htp, htq, hm, hc, hg, hw, hqm, hqb, he, hcond]
  have hab := hchar a b hta htb hmaxa hcapa hgeoa hwla hmaxb hblb hexpa
  have hba := hchar b a htb hta hmaxb hcapb hgeob hwlb hmaxa hbla hexpb
  by_cases hcond : a.rules.allowed_categories ≠ [] ∧
      b.rules.allowed_categories ≠ [] ∧
      listDisjoint a.rules.allowed_categories b.rules.allowed_categories = true
  · have hcond' : b.rules.allowed_categories ≠ [] ∧
        a.rules.allowed_categories ≠ [] ∧
        listDisjoint b.rules.allowed_categories a.rules.allowed_categories = true :=
      ⟨hcond.2.1, hcond.1, by rw [listDisjoint_comm]; exact hcond.2.2⟩
    simp [detectAllConflicts, detectAllPairs_two a b hA hB,
      detectAllPairs_two b a hB hA, haa, hbb, hab, hba, hcond, hcond',
      strContains_categoryConflictMsg]
  · have hcond' : ¬(b.rules.allowed_categories ≠ [] ∧
        a.rules.allowed_categories ≠ [] ∧
        listDisjoint b.rules.allowed_categories a.rules.allowed_categories = true) := by
      intro h
      exact hcond ⟨h.2.1, h.1, by rw [listDisjoint_comm]; exact h.2.2⟩
    simp [detectAllConflicts, detectAllPairs_two a b hA hB,
      detectAllPairs_two b a hB hA, haa, hbb, hab, hba, hcond, hcond']

/-- Witness for C1 amended: two disjoint category restrictions produce one
conflict entry in either store order. -/
theorem detectAllConflicts_category_pair_symm_witness :
    (detectAllConflicts
        [{ policy_id := 1, name := "EduOnly", rules := { allowed_categories := ["education"] } },
         { policy_id := 2, name := "FoodOnly", rules := { allowed_categories := ["food"] } }]).total_conflicts =
      (detectAllConflicts
        [{ policy_id := 2, name := "FoodOnly", rules := { allowed_categories := ["food"] } },
         { policy_id := 1, name := "EduOnly", rules := { allowed_categories := ["education"] } }]).total_conflicts :=
  (detectAllConflicts_category_pair_symm
    { policy_id := 1, name := "EduOnly", rules := { allowed_categories := ["education"] } }
    { policy_id := 2, name := "FoodOnly", rules := { allowed_categories := ["food"] } }
    rfl rfl rfl rfl ⟨rfl, rfl, rfl, rfl, rfl, rfl⟩ ⟨rfl, rfl, rfl, rfl, rfl, rfl⟩).1

/-! ### C4: severity of geo-fence disjointness conflicts -/

/-- The C4 counterexample policies: active, with non-empty disjoint
geo-fences and no other rules. -/
def geoPolicyA : Policy :=
  { policy_id := 1, name := "GeoA", rules := { geo_fence := ["IN-DL"] } }

/-- See `geoPolicyA`. -/
def geoPolicyB : Policy :=
  { policy_id := 2, name := "GeoB", rules := { geo_fence := ["IN-MH"] } }

set_option maxRecDepth 16384 in
/-- C4 as stated is false: for two active policies with non-empty disjoint
geo-fence sets, `detect_all_conflicts` does report a conflict entry for the
pair, but its severity is "MEDIUM", not CRITICAL — severity is
keyword-matched from the description text by `_assess_conflict_severity`,
and the geo-disjointness description contains none of the matched keywords
("impossible", "contradictory", "warning"). -/
theorem detectAllConflicts_geo_severity_counterexample :
    geoPolicyA.is_active = true ∧
      geoPolicyB.is_active = true ∧
      geoPolicyA.rules.geo_fence ≠ [] ∧
      geoPolicyB.rules.geo_fence ≠ [] ∧
      listDisjoint geoPolicyA.rules.geo_fence geoPolicyB.rules.geo_fence = true ∧
      (detectAllConflicts [geoPolicyA, geoPolicyB]).conflicts.map (·.severity) =
        ["MEDIUM"] ∧
      (detectAllConflicts [geoPolicyA, geoPolicyB]).has_critical_conflicts = false := by
  refine ⟨by decide, by decide, by decide, by decide, by decide, by decide, by decide⟩

/-- C4 amended: for every pair of active policies that both specify
non-empty disjoint geo_fence sets (and no other rules),
`detect_all_conflicts` reports exactly one conflict entry for the pair, and
its severity — obtained by keyword-matching the description text, not from
the rule that fired — is "MEDIUM" rather than CRITICAL, because the
geo-disjointness description contains none of the matched keywords. -/
theorem detectAllConflicts_geo_disjoint_medium (a b : Policy)
    (hA : a.is_active = true) (hB : b.is_active = true)
    (hga : a.rules.geo_fence ≠ []) (hgb : b.rules.geo_fence ≠ [])
    (hdisj : listDisjoint a.rules.geo_fence b.rules.geo_fence = true)
    (haf : a.rules.allowed_categories = [] ∧ a.rules.max_amount = none ∧
      a.rules.per_transaction_cap = none ∧ a.rules.merchant_whitelist = [] ∧
      a.rules.merchant_blacklist = [] ∧ a.rules.expiry = none)
    (hbf : b.rules.allowed_categories = [] ∧ b.rules.max_amount = none ∧
      b.rules.per_transaction_cap = none ∧ b.rules.merchant_whitelist = [] ∧
      b.rules.merchant_blacklist = [] ∧ b.rules.expiry = none)
    (hk1 : strContains (strToLower (geoConflictMsg a b)) "impossible" = false)
    (hk2 : strContains (strToLower (geoConflictMsg a b)) "contradictory" = false)
    (hk3 : strContains (strToLower (geoConflictMsg a b)) "warning" = false) :
    (detectAllConflicts [a, b]).conflicts =
        [{ policy_a := a.policy_id
           policy_a_name := a.name
           policy_b := b.policy_id
           policy_b_name := b.name
           conflict_description := geoConflictMsg a b
           severity := "MEDIUM" }] ∧
      (detectAllConflicts [a, b]).has_critical_conflicts = false := by
  obtain ⟨hca, hmaxa, hcapa, hwla, hbla, hexpa⟩ := haf
  obtain ⟨hcb, hmaxb, hcapb, hwlb, hblb, hexpb⟩ := hbf
  have haa : pairConflicts a a = [] :=
    pairConflicts_self_empty a hmaxa hcapa hwla hexpa
  have hab : pairConflicts a b = [geoConflictMsg a b] := by
    simp [pairConflicts, hca, hmaxa, hcapa, hwla, hexpa, hmaxb, hblb, hga,
      hgb, hdisj]
  have hsev : assessConflictSeverity (geoConflictMsg a b) = "MEDIUM" := by
    simp [assessConflictSeverity, hk1, hk2, hk3]
  constructor
  · simp [detectAllConflicts, detectAllPairs_two a b hA hB, haa, hab,
      strContains_geoConflictMsg, hsev]
  · simp [detectAllConflicts, detectAllPairs_two a b hA hB, haa, hab,
      strContains_geoConflictMsg, hsev]

set_option maxRecDepth 16384 in
/-- Witness for C4 amended at the concrete disjoint geo-fence pair. -/
theorem detectAllConflicts_geo_disjoint_medium_witness :
    (detectAllConflicts [geoPolicyA, geoPolicyB]).conflicts =
        [{ policy_a := geoPolicyA.policy_id
           policy_a_name := geoPolicyA.name
           policy_b := geoPolicyB.policy_id
           policy_b_name := geoPolicyB.name
           conflict_description := geoConflictMsg geoPolicyA geoPolicyB
           severity := "MEDIUM" }] ∧
      (detectAllConflicts [geoPolicyA, geoPolicyB]).has_critical_conflicts = false :=
  detectAllConflicts_geo_disjoint_medium geoPolicyA geoPolicyB rfl rfl
    (by decide) (by decide) (by decide)
    ⟨rfl, rfl, rfl, rfl, rfl, rfl⟩ ⟨rfl, rfl, rfl, rfl, rfl, rfl⟩
    (by decide) (by decide) (by decide)

end IntentForge
